import Mathlib

/-!
Verification of the SRE microservice (`src/app/main.py`): a shallow
embedding of the Text Engine (`analyze_text`), the Stats Engine
(`calculate_statistics`), the request validation (`PayloadRequest`),
the Shutdown Coordinator (`GracefulShutdown`) and the request
middleware (`request_middleware`), together with theorems settling the
specification's claims about them.

Python strings are modelled as `List Char`, Python numbers as `ℚ`
(with the standard deviation landing in `ℝ` because of the square
root), and the mutable service state as explicit state passing.
-/

namespace SRE

/-! ## Text Engine (`analyze_text`, main.py lines 223-236) -/

/-- Python whitespace for `str.split()` / `str.strip()`, restricted to the
ASCII range: space, tab, newline, carriage return, vertical tab, form feed. -/
def pyIsSpace (c : Char) : Bool :=
  c = ' ' || c = '\t' || c = '\n' || c = '\x0d' || c = '\x0b' || c = '\x0c'

/-- Helper for `pySplitWs`: accumulates the current (reversed) token. -/
def wordsAux : List Char → List Char → List (List Char)
  | [], [] => []
  | [], cur => [cur.reverse]
  | c :: rest, cur =>
    if pyIsSpace c then
      match cur with
      | [] => wordsAux rest []
      | _ :: _ => cur.reverse :: wordsAux rest []
    else wordsAux rest (c :: cur)

/-- Python `text.split()` (no separator): splits on runs of whitespace and
discards empty tokens. -/
def pySplitWs (s : List Char) : List (List Char) := wordsAux s []

/-- Helper for `pySplitSep`: accumulates the current (reversed) segment. -/
def splitSepAux (sep : Char) : List Char → List Char → List (List Char)
  | [], cur => [cur.reverse]
  | c :: rest, cur =>
    if c = sep then cur.reverse :: splitSepAux sep rest []
    else splitSepAux sep rest (c :: cur)

/-- Python `text.split(sep)` for a one-character separator: keeps empty
segments, and always returns at least one segment. -/
def pySplitSep (sep : Char) (s : List Char) : List (List Char) :=
  splitSepAux sep s []

/-- Python `s.strip()`: removes leading and trailing whitespace. -/
def pyStrip (s : List Char) : List Char :=
  ((s.dropWhile pyIsSpace).reverse.dropWhile pyIsSpace).reverse

/-- Result record of `analyze_text`. -/
structure TextAnalysis where
  word_count : ℕ
  character_count : ℕ
  character_count_no_spaces : ℕ
  sentence_count : ℕ
  paragraph_count : ℕ
  deriving Repr, DecidableEq

/-- `analyze_text` (main.py lines 223-236): `text.split()` token count,
`len(text)`, `len(text.replace(" ", ""))`, and the counts of
`'.'`-separated and newline-separated segments that are truthy after
`strip()`. -/
def analyze_text (text : List Char) : TextAnalysis where
  word_count := (pySplitWs text).length
  character_count := text.length
  character_count_no_spaces := (text.filter (fun c => c ≠ ' ')).length
  sentence_count := ((pySplitSep '.' text).filter (fun s => pyStrip s ≠ [])).length
  paragraph_count := ((pySplitSep '\n' text).filter (fun s => pyStrip s ≠ [])).length

/-! ### Spec-side characterisations of the text counts

These are written from the specification's wording, independently of the
split-based code above, and then proved to agree with `analyze_text`. -/

/-- Spec side: "count of whitespace-delimited tokens" — the number of
maximal non-whitespace runs, counted by a scan that remembers whether the
previous character was part of a token. -/
def tokenRunCount : Bool → List Char → ℕ
  | _, [] => 0
  | inTok, c :: rest =>
    if pyIsSpace c then tokenRunCount false rest
    else (if inTok then 0 else 1) + tokenRunCount true rest

/-- Spec side: word count is the number of maximal non-whitespace runs. -/
def word_count_spec (s : List Char) : ℕ := tokenRunCount false s

/-- Spec side: "length after removing only the ASCII space character" as
total length minus the number of spaces. -/
def char_count_no_spaces_spec (s : List Char) : ℕ :=
  s.length - s.count ' '

/-- Spec side: "number of sep-delimited segments with non-whitespace content
after trimming" — segments containing at least one non-whitespace char. -/
def segment_count_spec (sep : Char) (s : List Char) : ℕ :=
  ((pySplitSep sep s).filter (fun seg => seg.any (fun c => ¬ pyIsSpace c))).length

/-! ## Stats Engine (`calculate_statistics`, main.py lines 208-221) -/

/-- Python `min(numbers)`: left fold of binary `min` over a non-empty list
(the empty case raises in Python and is unreachable behind validation;
mapped to `0` here). -/
def pyMin : List ℚ → ℚ
  | [] => 0
  | x :: xs => xs.foldl min x

/-- Python `max(numbers)`: left fold of binary `max` over a non-empty list. -/
def pyMax : List ℚ → ℚ
  | [] => 0
  | x :: xs => xs.foldl max x

/-- Python `statistics.mean(numbers)`: sum divided by length. -/
def pyMean (xs : List ℚ) : ℚ := xs.sum / xs.length

/-- Python `sorted(numbers)`: stable ascending sort. -/
def pySorted (xs : List ℚ) : List ℚ := xs.insertionSort (· ≤ ·)

/-- Python `statistics.median(numbers)`: middle element of the sorted list
for odd length, average of the two middle elements for even length. -/
def pyMedian (xs : List ℚ) : ℚ :=
  let s := pySorted xs
  let n := xs.length
  if n % 2 = 1 then s.getD (n / 2) 0
  else (s.getD (n / 2 - 1) 0 + s.getD (n / 2) 0) / 2

/-- The sum `Σ (x - mean)²` appearing in the sample variance. -/
def sqDevSum (xs : List ℚ) : ℚ :=
  (xs.map (fun x => (x - pyMean xs) ^ 2)).sum

/-- Python `statistics.stdev(numbers)`: square root of the sample variance
`Σ (x - mean)² / (n - 1)` (the divisor `n - 1` is natural-number
subtraction; `stdev` is only ever called with `n > 1`). -/
noncomputable def pyStdev (xs : List ℚ) : ℝ :=
  Real.sqrt ((sqDevSum xs / (xs.length - 1 : ℕ) : ℚ) : ℝ)

/-- Result record of `calculate_statistics`. -/
structure StatsResult where
  minimum : ℚ
  maximum : ℚ
  mean : ℚ
  median : ℚ
  standard_deviation : ℝ
  count : ℕ

/-- `calculate_statistics` (main.py lines 208-221): min, max, mean, median,
`stdev` guarded by `len(numbers) > 1` (else the literal `0.0`), and count. -/
noncomputable def calculate_statistics (numbers : List ℚ) : StatsResult where
  minimum := pyMin numbers
  maximum := pyMax numbers
  mean := pyMean numbers
  median := pyMedian numbers
  standard_deviation :=
    if 1 < numbers.length then pyStdev numbers else 0
  count := numbers.length

/-- Spec side: "sample standard deviation", written from the spec's words as
`√(Σ (xᵢ - x̄)² / (n - 1))` with the divisor computed in `ℚ` (true
subtraction), independently of the code's guarded expression. -/
noncomputable def sampleStdevSpec (xs : List ℚ) : ℝ :=
  Real.sqrt ((sqDevSum xs / ((xs.length : ℚ) - 1) : ℚ) : ℝ)

/-! ## Request validation (`PayloadRequest`, main.py lines 51-70) -/

/-- The error kinds of the service's taxonomy, as they reach the middleware. -/
inductive ErrKind where
  | validationError
  | admissionRejected
  | computationError
  | internalError
  deriving Repr, DecidableEq

/-- `PayloadRequest` validation (main.py lines 51-70): `text` has
`min_length=1`; `validate_numbers` rejects an empty list and more than
10000 items; `validate_text` rejects more than 50000 characters.
Returns `none` when the payload passes validation. -/
def validate_payload (numbers : List ℚ) (text : List Char) : Option ErrKind :=
  if numbers = [] then some .validationError
  else if numbers.length > 10000 then some .validationError
  else if text.length < 1 then some .validationError
  else if text.length > 50000 then some .validationError
  else none

/-- The `/payload` handler behind validation: the engines run only on a
payload that validated, otherwise the 422-equivalent validation error is
returned and neither engine is invoked. -/
noncomputable def process_payload (numbers : List ℚ) (text : List Char) :
    Except ErrKind (StatsResult × TextAnalysis) :=
  match validate_payload numbers text with
  | some e => .error e
  | none => .ok (calculate_statistics numbers, analyze_text text)

/-! ## Shutdown Coordinator (`GracefulShutdown`, main.py lines 84-118) -/

/-- The mutable fields of `GracefulShutdown`: `shutdown_event` (an
`asyncio.Event`, modelled by whether it has been set), `active_requests`
(a Python `int`, so modelled as `ℤ`), and `accepting_requests`. -/
structure ServiceState where
  shutdown_event : Bool
  active_requests : ℤ
  accepting_requests : Bool
  deriving Repr, DecidableEq

/-- `GracefulShutdown.__init__` (main.py lines 87-90). -/
def initState : ServiceState :=
  { shutdown_event := false, active_requests := 0, accepting_requests := true }

/-- `GracefulShutdown.start_request` (main.py lines 92-97): raises the
503 `HTTPException` when not accepting, otherwise increments
`active_requests`. The raise happens before the increment, so a rejected
admission leaves the state untouched. -/
def start_request (s : ServiceState) : Except ErrKind ServiceState :=
  if !s.accepting_requests then .error .admissionRejected
  else .ok { s with active_requests := s.active_requests + 1 }

/-- `GracefulShutdown.end_request` (main.py lines 99-102): unconditionally
decrements `active_requests`. -/
def end_request (s : ServiceState) : ServiceState :=
  { s with active_requests := s.active_requests - 1 }

/-- The first, synchronous effect of `GracefulShutdown.shutdown`
(main.py line 107): flip `accepting_requests` to `False`. -/
def initiate_shutdown (s : ServiceState) : ServiceState :=
  { s with accepting_requests := false }

/-- The completion of `GracefulShutdown.shutdown` (main.py lines 110-115):
once the wait loop observes `active_requests == 0`, the shutdown event is
set. Only meaningful after `initiate_shutdown`. -/
def complete_shutdown (s : ServiceState) : ServiceState :=
  { s with shutdown_event := true }

/-- The coordinator's state-machine states as the spec names them. -/
inductive CoordState where
  | ACCEPTING
  | DRAINING
  | STOPPED
  deriving Repr, DecidableEq

/-- Reading the state machine off the concrete fields: `ACCEPTING` while
`accepting_requests` holds, `STOPPED` once the shutdown event is set,
`DRAINING` in between. -/
def coordState (s : ServiceState) : CoordState :=
  if s.accepting_requests then .ACCEPTING
  else if s.shutdown_event then .STOPPED
  else .DRAINING

/-! ## Request middleware (`request_middleware`, main.py lines 148-185) -/

/-- The metrics series the middleware touches, aggregated over label sets:
`http_request_duration_seconds` observation count,
`http_requests_total`, and `http_errors_total`. -/
structure Metrics where
  duration_observations : ℕ
  requests_total : ℕ
  errors_total : ℕ
  deriving Repr, DecidableEq

/-- The zero reading of all three series. -/
def initMetrics : Metrics :=
  { duration_observations := 0, requests_total := 0, errors_total := 0 }

/-- What `call_next` (the downstream pipeline) does for one request:
either produce a response with a status code, or raise an error of the
taxonomy. -/
inductive Downstream where
  | response (status : ℕ)
  | raised (e : ErrKind)
  deriving Repr, DecidableEq

/-- The middleware's observable outcome for one request. -/
inductive MwOutcome where
  | ok (status : ℕ)
  | failed (e : ErrKind)
  deriving Repr, DecidableEq

/-- `request_middleware` (main.py lines 148-185), as a state transformer on
`(ServiceState, Metrics)` for one request whose downstream behaviour is
`h`. `start_request` is called before the `try` block, so when it raises,
the `except` clause (error counter) and the `finally` clause
(`end_request`) are both skipped and the exception propagates. On the
success path the duration histogram and the request counter are updated;
on a downstream exception the error counter is updated and the exception
re-raised; in both of those cases `finally` runs `end_request` once. -/
def request_middleware (s : ServiceState) (m : Metrics) (h : Downstream) :
    MwOutcome × ServiceState × Metrics :=
  match start_request s with
  | .error e => (.failed e, s, m)
  | .ok s1 =>
    match h with
    | .response status =>
      (.ok status, end_request s1,
        { m with
          duration_observations := m.duration_observations + 1,
          requests_total := m.requests_total + 1 })
    | .raised e =>
      (.failed e, end_request s1,
        { m with errors_total := m.errors_total + 1 })

/-! ## Traces of the whole system

A configuration pairs the coordinator's state with a ghost count of the
requests currently inside the middleware (admitted, not yet released).
The events are exactly those the running program generates: a request
entering the middleware (`enter`), an admitted request leaving through
the `finally` clause (`exitReq`), the signal handler starting the
shutdown (`beginShutdown`), and the shutdown wait loop observing a drained
service (`finishShutdown`). -/
structure Config where
  svc : ServiceState
  inflight : ℕ
  deriving Repr, DecidableEq

/-- One observable step of the system. -/
inductive Step : Config → Config → Prop where
  | enter (c : Config) (hacc : c.svc.accepting_requests = true) (s1 : ServiceState)
      (hs : start_request c.svc = .ok s1) :
      Step c { svc := s1, inflight := c.inflight + 1 }
  | enterRejected (c : Config) (hacc : c.svc.accepting_requests = false) :
      Step c c
  | exitReq (c : Config) (hpos : 0 < c.inflight) :
      Step c { svc := end_request c.svc, inflight := c.inflight - 1 }
  | beginShutdown (c : Config) :
      Step c { svc := initiate_shutdown c.svc, inflight := c.inflight }
  | finishShutdown (c : Config) (hacc : c.svc.accepting_requests = false)
      (hdrained : c.svc.active_requests = 0) :
      Step c { svc := complete_shutdown c.svc, inflight := c.inflight }

/-- Configurations reachable from the freshly constructed service. -/
inductive Reachable : Config → Prop where
  | init : Reachable { svc := initState, inflight := 0 }
  | step {c c' : Config} : Reachable c → Step c c' → Reachable c'

/-! ## Helper lemmas: Text Engine -/

/-- The sample text used by the spec's Text Engine example. -/
def sampleText : List Char := "This is a sample text for analysis.".toList

theorem wordsAux_length (s : List Char) : ∀ cur : List Char,
    (wordsAux s cur).length =
      tokenRunCount (!cur.isEmpty) s + (if cur.isEmpty then 0 else 1) := by
  induction s with
  | nil => intro cur; cases cur <;> simp [wordsAux, tokenRunCount]
  | cons c rest ih =>
    intro cur
    by_cases hsp : pyIsSpace c <;>
      cases cur <;> simp [wordsAux, tokenRunCount, hsp, ih] <;> omega

theorem word_count_eq_spec (s : List Char) :
    (pySplitWs s).length = word_count_spec s := by
  simpa [pySplitWs, word_count_spec] using wordsAux_length s []

theorem pyStrip_eq_nil_iff (s : List Char) :
    pyStrip s = [] ↔ ∀ c ∈ s, pyIsSpace c := by
  unfold pyStrip
  rw [List.reverse_eq_nil_iff, List.dropWhile_eq_nil_iff]
  constructor
  · intro h c hc
    rcases List.mem_append.mp
        ((List.takeWhile_append_dropWhile (p := pyIsSpace) (l := s)) ▸ hc) with h1 | h1
    · exact List.mem_takeWhile_imp h1
    · exact h c (List.mem_reverse.mpr h1)
  · intro h c hc
    exact h c ((List.dropWhile_sublist _).mem (List.mem_reverse.mp hc))

theorem strip_truthy_iff (s : List Char) :
    (decide (pyStrip s ≠ [])) = s.any (fun c => ¬ pyIsSpace c) := by
  rw [Bool.eq_iff_iff]
  simp [pyStrip_eq_nil_iff, List.any_eq_true]

theorem segment_count_eq_spec (sep : Char) (s : List Char) :
    ((pySplitSep sep s).filter (fun t => pyStrip t ≠ [])).length =
      segment_count_spec sep s := by
  unfold segment_count_spec
  congr 1
  exact List.filter_congr (fun t _ => strip_truthy_iff t)

theorem no_spaces_eq_spec (s : List Char) :
    (s.filter (fun c => c ≠ ' ')).length = char_count_no_spaces_spec s := by
  unfold char_count_no_spaces_spec
  induction s with
  | nil => simp
  | cons c rest ih =>
    have hle : List.count ' ' rest ≤ rest.length := List.count_le_length _ _
    by_cases h : c = ' ' <;>
      simp [List.filter_cons, List.count_cons, h] at ih ⊢ <;> omega

/-- C5: for every input text of length 1..50000, the Text Engine's five
counters agree with the spec's characterisations: whitespace-delimited
token count, total length, length minus ASCII spaces, and the numbers of
`'.'`- and newline-delimited segments with non-whitespace content. -/
theorem text_engine_correct (text : List Char)
    (hlen1 : 1 ≤ text.length) (hlen2 : text.length ≤ 50000) :
    (analyze_text text).word_count = word_count_spec text ∧
    (analyze_text text).character_count = text.length ∧
    (analyze_text text).character_count_no_spaces = char_count_no_spaces_spec text ∧
    (analyze_text text).sentence_count = segment_count_spec '.' text ∧
    (analyze_text text).paragraph_count = segment_count_spec '\n' text := by
  refine ⟨word_count_eq_spec text, rfl, no_spaces_eq_spec text,
    segment_count_eq_spec '.' text, segment_count_eq_spec '\n' text⟩

/-- Witness for C5 at the spec's sample text (length 35). -/
theorem text_engine_correct_witness :
    1 ≤ sampleText.length ∧ sampleText.length ≤ 50000 ∧
    ((analyze_text sampleText).word_count = word_count_spec sampleText ∧
      (analyze_text sampleText).character_count = sampleText.length ∧
      (analyze_text sampleText).character_count_no_spaces =
        char_count_no_spaces_spec sampleText ∧
      (analyze_text sampleText).sentence_count = segment_count_spec '.' sampleText ∧
      (analyze_text sampleText).paragraph_count = segment_count_spec '\n' sampleText) :=
  ⟨by decide, by decide, text_engine_correct sampleText (by decide) (by decide)⟩

/-- C6 counterexample: the sample text "This is a sample text for analysis."
has 7 whitespace-delimited tokens, not the 8 the claim states. -/
theorem sample_word_count_cex : (analyze_text sampleText).word_count ≠ 8 := by
  decide

/-- C6 (amended): for the sample text the Text Engine returns
`word_count = 7` and `character_count` equal to the text's length (35). -/
theorem sample_word_count : (analyze_text sampleText).word_count = 7 ∧
    (analyze_text sampleText).character_count = sampleText.length := by
  constructor <;> decide

/-! ## Helper lemmas: Stats Engine -/

theorem foldl_min_le_init (xs : List ℚ) : ∀ a : ℚ, xs.foldl min a ≤ a := by
  induction xs with
  | nil => intro a; simp
  | cons b l ih =>
    intro a
    calc (b :: l).foldl min a = l.foldl min (min a b) := by simp
    _ ≤ min a b := ih (min a b)
    _ ≤ a := min_le_left a b

theorem foldl_min_le_mem (xs : List ℚ) : ∀ a y : ℚ, y ∈ xs → xs.foldl min a ≤ y := by
  induction xs with
  | nil => intro a y hy; cases hy
  | cons b l ih =>
    intro a y hy
    rcases List.mem_cons.mp hy with h | h
    · subst h
      calc (y :: l).foldl min a = l.foldl min (min a y) := by simp
      _ ≤ min a y := foldl_min_le_init l (min a y)
      _ ≤ y := min_le_right a y
    · simpa using ih (min a b) y h

theorem init_le_foldl_max (xs : List ℚ) : ∀ a : ℚ, a ≤ xs.foldl max a := by
  induction xs with
  | nil => intro a; simp
  | cons b l ih =>
    intro a
    calc a ≤ max a b := le_max_left a b
    _ ≤ l.foldl max (max a b) := ih (max a b)
    _ = (b :: l).foldl max a := by simp

theorem mem_le_foldl_max (xs : List ℚ) : ∀ a y : ℚ, y ∈ xs → y ≤ xs.foldl max a := by
  induction xs with
  | nil => intro a y hy; cases hy
  | cons b l ih =>
    intro a y hy
    rcases List.mem_cons.mp hy with h | h
    · subst h
      calc y ≤ max a y := le_max_right a y
      _ ≤ l.foldl max (max a y) := init_le_foldl_max l (max a y)
      _ = (y :: l).foldl max a := by simp
    · simpa using ih (max a b) y h

theorem pyMin_le_mem (xs : List ℚ) (y : ℚ) (hy : y ∈ xs) : pyMin xs ≤ y := by
  match xs, hy with
  | x :: l, hy =>
    rcases List.mem_cons.mp hy with h | h
    · subst h; exact foldl_min_le_init l y
    · exact foldl_min_le_mem l x y h

theorem mem_le_pyMax (xs : List ℚ) (y : ℚ) (hy : y ∈ xs) : y ≤ pyMax xs := by
  match xs, hy with
  | x :: l, hy =>
    rcases List.mem_cons.mp hy with h | h
    · subst h; exact init_le_foldl_max l y
    · exact mem_le_foldl_max l x y h

theorem pyMin_le_pyMean (xs : List ℚ) (hne : xs ≠ []) : pyMin xs ≤ pyMean xs := by
  have hpos : (0 : ℚ) < xs.length := by
    have := List.length_pos.mpr hne
    exact_mod_cast this
  have hsum : xs.length • pyMin xs ≤ xs.sum :=
    List.card_nsmul_le_sum xs (pyMin xs) (fun y hy => pyMin_le_mem xs y hy)
  rw [nsmul_eq_mul] at hsum
  rw [pyMean, le_div_iff₀ hpos]
  linarith [hsum]

theorem pyMean_le_pyMax (xs : List ℚ) (hne : xs ≠ []) : pyMean xs ≤ pyMax xs := by
  have hpos : (0 : ℚ) < xs.length := by
    have := List.length_pos.mpr hne
    exact_mod_cast this
  have hsum : xs.sum ≤ xs.length • pyMax xs :=
    List.sum_le_card_nsmul xs (pyMax xs) (fun y hy => mem_le_pyMax xs y hy)
  rw [nsmul_eq_mul] at hsum
  rw [pyMean, div_le_iff₀ hpos]
  linarith [hsum]

theorem pySorted_mem (xs : List ℚ) (y : ℚ) (hy : y ∈ pySorted xs) : y ∈ xs :=
  (List.perm_insertionSort (· ≤ ·) xs).mem_iff.mp hy

theorem pySorted_length (xs : List ℚ) : (pySorted xs).length = xs.length :=
  (List.perm_insertionSort (· ≤ ·) xs).length_eq

theorem pySorted_getD_mem (xs : List ℚ) (i : ℕ) (hi : i < xs.length) :
    (pySorted xs).getD i 0 ∈ xs := by
  have hi' : i < (pySorted xs).length := by rw [pySorted_length]; exact hi
  rw [List.getD_eq_getElem (pySorted xs) 0 hi']
  exact pySorted_mem xs _ (List.getElem_mem hi')

theorem pyMedian_bounds (xs : List ℚ) (hne : xs ≠ []) :
    pyMin xs ≤ pyMedian xs ∧ pyMedian xs ≤ pyMax xs := by
  have hlen : 0 < xs.length := List.length_pos.mpr hne
  unfold pyMedian
  by_cases hodd : xs.length % 2 = 1
  · simp only [hodd, if_true]
    have hmem := pySorted_getD_mem xs (xs.length / 2) (by omega)
    exact ⟨pyMin_le_mem xs _ hmem, mem_le_pyMax xs _ hmem⟩
  · simp only [hodd, if_false]
    have h2 : 2 ≤ xs.length := by omega
    have hmem1 := pySorted_getD_mem xs (xs.length / 2 - 1) (by omega)
    have hmem2 := pySorted_getD_mem xs (xs.length / 2) (by omega)
    constructor
    · have h1 := pyMin_le_mem xs _ hmem1
      have h2' := pyMin_le_mem xs _ hmem2
      linarith
    · have h1 := mem_le_pyMax xs _ hmem1
      have h2' := mem_le_pyMax xs _ hmem2
      linarith

/-! ## Theorems: Stats Engine claims -/

/-- C7: the Stats Engine's `standard_deviation` equals the sample standard
deviation `√(Σ (xᵢ - x̄)² / (n - 1))` whenever `count > 1`, and equals `0`
by explicit policy (the guarded branch, not a division) when `count == 1`. -/
theorem stdev_policy (xs : List ℚ) :
    (1 < xs.length →
      (calculate_statistics xs).standard_deviation = sampleStdevSpec xs) ∧
    (xs.length = 1 → (calculate_statistics xs).standard_deviation = 0) := by
  constructor
  · intro h
    have h1 : 1 ≤ xs.length := le_of_lt h
    have hcast : ((xs.length - 1 : ℕ) : ℚ) = (xs.length : ℚ) - 1 := by
      push_cast [h1]
      ring
    simp only [calculate_statistics, h, if_true, pyStdev, sampleStdevSpec, hcast]
  · intro h
    simp only [calculate_statistics, h]
    norm_num

/-- Witness for C7 at the two-element list `[1, 2]` and the singleton `[42]`. -/
theorem stdev_policy_witness :
    (calculate_statistics [1, 2]).standard_deviation = sampleStdevSpec [1, 2] ∧
    (calculate_statistics [42]).standard_deviation = 0 :=
  ⟨(stdev_policy [1, 2]).1 (by decide), (stdev_policy [42]).2 (by decide)⟩

/-- C8: on `[1,2,3,4,5]` the Stats Engine returns minimum 1, maximum 5,
mean 3, median 3 and count 5; on `[42]` it returns standard deviation 0
and minimum, maximum, mean and median all equal to 42. -/
theorem stats_examples :
    (calculate_statistics [1, 2, 3, 4, 5]).minimum = 1 ∧
    (calculate_statistics [1, 2, 3, 4, 5]).maximum = 5 ∧
    (calculate_statistics [1, 2, 3, 4, 5]).mean = 3 ∧
    (calculate_statistics [1, 2, 3, 4, 5]).median = 3 ∧
    (calculate_statistics [1, 2, 3, 4, 5]).count = 5 ∧
    (calculate_statistics [42]).standard_deviation = 0 ∧
    (calculate_statistics [42]).minimum = 42 ∧
    (calculate_statistics [42]).maximum = 42 ∧
    (calculate_statistics [42]).mean = 42 ∧
    (calculate_statistics [42]).median = 42 := by
  refine ⟨by decide, by decide, by norm_num [calculate_statistics, pyMean],
    by decide, by decide, ?_, by decide, by decide,
    by norm_num [calculate_statistics, pyMean], by decide⟩
  simp only [calculate_statistics]
  norm_num

/-- C10: for every non-empty input the Stats Engine's output satisfies
`minimum ≤ mean ≤ maximum` and `minimum ≤ median ≤ maximum`, and `count`
is the input's length. -/
theorem stats_bounds (xs : List ℚ) (hne : xs ≠ []) :
    (calculate_statistics xs).minimum ≤ (calculate_statistics xs).mean ∧
    (calculate_statistics xs).mean ≤ (calculate_statistics xs).maximum ∧
    (calculate_statistics xs).minimum ≤ (calculate_statistics xs).median ∧
    (calculate_statistics xs).median ≤ (calculate_statistics xs).maximum ∧
    (calculate_statistics xs).count = xs.length := by
  have hmed := pyMedian_bounds xs hne
  exact ⟨pyMin_le_pyMean xs hne, pyMean_le_pyMax xs hne, hmed.1, hmed.2, rfl⟩

/-- Witness for C10 at the list `[3, 1, 2]`. -/
theorem stats_bounds_witness :
    ([3, 1, 2] : List ℚ) ≠ [] ∧
    ((calculate_statistics [3, 1, 2]).minimum ≤ (calculate_statistics [3, 1, 2]).mean ∧
    (calculate_statistics [3, 1, 2]).mean ≤ (calculate_statistics [3, 1, 2]).maximum ∧
    (calculate_statistics [3, 1, 2]).minimum ≤ (calculate_statistics [3, 1, 2]).median ∧
    (calculate_statistics [3, 1, 2]).median ≤ (calculate_statistics [3, 1, 2]).maximum ∧
    (calculate_statistics [3, 1, 2]).count = ([3, 1, 2] : List ℚ).length) :=
  ⟨by decide, stats_bounds [3, 1, 2] (by decide)⟩

/-! ## Theorems: middleware, coordinator and validation claims -/

/-- C1 counterexample: in a draining state the middleware short-circuits
with the 503-equivalent `AdmissionRejected`, but — contrary to the claim's
"only the error count" is recorded — `http_errors_total` is NOT
incremented: `start_request` raises before the `try`, so the `except`
clause never runs. -/
theorem admission_rejection_cex :
    ((request_middleware
        { shutdown_event := false, active_requests := 3, accepting_requests := false }
        initMetrics (.response 200)).1 = .failed .admissionRejected) ∧
    ¬ ((request_middleware
        { shutdown_event := false, active_requests := 3, accepting_requests := false }
        initMetrics (.response 200)).2.2.errors_total =
      initMetrics.errors_total + 1) := by
  decide

/-- C1 (amended): a rejected admission short-circuits with the
503-equivalent response, records no metric at all (neither the latency
histogram nor the error counter), skips the rest of the pipeline, and
leaves the coordinator's state — in particular `active_requests` —
unchanged; a successful admission pairs the increment with exactly one
`release`, returning `active_requests` to its prior value. -/
theorem admission_rejection_shortcircuit (s : ServiceState) (m : Metrics)
    (h : Downstream) (hacc : s.accepting_requests = false) :
    request_middleware s m h = (.failed .admissionRejected, s, m) ∧
    ∀ s' : ServiceState, s'.accepting_requests = true →
      (request_middleware s' m h).2.1.active_requests = s'.active_requests := by
  constructor
  · simp [request_middleware, start_request, hacc]
  · intro s' hacc'
    cases h <;> simp [request_middleware, start_request, end_request, hacc']

/-- Witness for C1 at a concrete draining state and a concrete accepting
state. -/
theorem admission_rejection_shortcircuit_witness :
    (request_middleware
        { shutdown_event := false, active_requests := 7, accepting_requests := false }
        initMetrics (.response 200) =
      (.failed .admissionRejected,
        { shutdown_event := false, active_requests := 7, accepting_requests := false },
        initMetrics)) ∧
    ∀ s' : ServiceState, s'.accepting_requests = true →
      (request_middleware s' initMetrics (.response 200)).2.1.active_requests =
        s'.active_requests :=
  admission_rejection_shortcircuit
    { shutdown_event := false, active_requests := 7, accepting_requests := false }
    initMetrics (.response 200) (by decide)

/-- C2: in every reachable configuration of the traced system — any
interleaving of middleware entries and exits and shutdown signals — the
number of live in-flight requests equals the `active_requests` counter,
and the counter is never negative. -/
theorem active_requests_invariant (c : Config) (hr : Reachable c) :
    c.svc.active_requests = c.inflight ∧ 0 ≤ c.svc.active_requests := by
  induction hr with
  | init => simp [initState]
  | step hr hstep ih =>
    obtain ⟨h1, h2⟩ := ih
    cases hstep with
    | enter hacc s1 hs =>
      simp [start_request, hacc] at hs
      subst hs
      refine ⟨?_, ?_⟩ <;> simp <;> omega
    | enterRejected hacc => exact ⟨h1, h2⟩
    | exitReq hpos =>
      refine ⟨?_, ?_⟩ <;> simp [end_request] <;> omega
    | beginShutdown => exact ⟨h1, h2⟩
    | finishShutdown hacc hdrained => exact ⟨h1, h2⟩

/-- The configuration after one admitted request, used by the C2 witness. -/
def cfgOne : Config where
  svc := { shutdown_event := false, active_requests := 1, accepting_requests := true }
  inflight := 1

/-- The configuration after that request has exited, used by the C2 witness. -/
def cfgDone : Config where
  svc := end_request cfgOne.svc
  inflight := 0

/-- Witness for C2 at a two-step trace: one admitted request that then
exits through the middleware's `finally`. -/
theorem active_requests_invariant_witness :
    cfgDone.svc.active_requests = cfgDone.inflight ∧
    0 ≤ cfgDone.svc.active_requests :=
  active_requests_invariant cfgDone
    (Reachable.step
      (Reachable.step Reachable.init
        (Step.enter { svc := initState, inflight := 0 } rfl cfgOne.svc rfl))
      (Step.exitReq cfgOne (by decide)))

/-- C3: once shutdown has begun the coordinator no longer accepts —
`start_request` fails with the 503-equivalent `AdmissionRejected` — and
from any non-accepting configuration every step keeps `accepting` false
and never increases `active_requests`; once the counter reaches 0 the
finishing step is enabled and takes the coordinator to the terminal
`STOPPED` state with the completion event set. -/
theorem shutdown_temporal (s : ServiceState) (c c' : Config)
    (hacc : c.svc.accepting_requests = false) :
    ((initiate_shutdown s).accepting_requests = false ∧
      start_request (initiate_shutdown s) = .error .admissionRejected) ∧
    (Step c c' →
      c'.svc.active_requests ≤ c.svc.active_requests ∧
      c'.svc.accepting_requests = false) ∧
    (c.svc.active_requests = 0 →
      Step c { svc := complete_shutdown c.svc, inflight := c.inflight } ∧
      coordState (complete_shutdown c.svc) = .STOPPED ∧
      (complete_shutdown c.svc).shutdown_event = true) := by
  refine ⟨⟨rfl, by simp [start_request, initiate_shutdown]⟩, ?_, ?_⟩
  · intro hstep
    cases hstep with
    | enter hacc' s1 hs => simp [hacc] at hacc'
    | enterRejected hacc' => exact ⟨le_refl _, hacc⟩
    | exitReq hpos => exact ⟨by simp [end_request], by simpa using hacc⟩
    | beginShutdown => exact ⟨le_refl _, rfl⟩
    | finishShutdown hacc' hdrained => exact ⟨le_refl _, by simpa using hacc⟩
  · intro hdrained
    exact ⟨Step.finishShutdown c hacc hdrained,
      by simp [coordState, complete_shutdown, hacc], rfl⟩

/-- Witness for C3 at a concrete drained, non-accepting configuration. -/
theorem shutdown_temporal_witness :
    ((initiate_shutdown initState).accepting_requests = false ∧
      start_request (initiate_shutdown initState) = .error .admissionRejected) ∧
    (Step { svc := initiate_shutdown initState, inflight := 0 }
        { svc := initiate_shutdown initState, inflight := 0 } →
      ({ svc := initiate_shutdown initState, inflight := 0 } : Config).svc.active_requests ≤
        ({ svc := initiate_shutdown initState, inflight := 0 } : Config).svc.active_requests ∧
      ({ svc := initiate_shutdown initState, inflight := 0 } : Config).svc.accepting_requests
        = false) ∧
    (({ svc := initiate_shutdown initState, inflight := 0 } : Config).svc.active_requests = 0 →
      Step { svc := initiate_shutdown initState, inflight := 0 }
        { svc := complete_shutdown (initiate_shutdown initState), inflight := 0 } ∧
      coordState (complete_shutdown (initiate_shutdown initState)) = .STOPPED ∧
      (complete_shutdown (initiate_shutdown initState)).shutdown_event = true) :=
  shutdown_temporal initState
    { svc := initiate_shutdown initState, inflight := 0 }
    { svc := initiate_shutdown initState, inflight := 0 } (by decide)

/-- C4 counterexample: a request rejected at admission ends in the
taxonomy's `AdmissionRejected` error, yet `http_errors_total` stays at 0
— the raise happens before the middleware's `try`/`except`, so this error
path does not increment the error counter. -/
theorem error_counter_cex :
    ((request_middleware
        { shutdown_event := false, active_requests := 1, accepting_requests := false }
        initMetrics (.response 200)).1 = .failed .admissionRejected) ∧
    (request_middleware
        { shutdown_event := false, active_requests := 1, accepting_requests := false }
        initMetrics (.response 200)).2.2.errors_total = 0 := by
  decide

/-- C4 (amended): every error that reaches the middleware from the
downstream pipeline (ValidationError, ComputationError, InternalError)
increments `http_errors_total` exactly once and is re-raised; the success
path leaves the error counter untouched. `AdmissionRejected`, by
contrast, is raised before the `try` and increments nothing. -/
theorem downstream_error_counted (s : ServiceState) (m : Metrics) (e : ErrKind)
    (hacc : s.accepting_requests = true) :
    (request_middleware s m (.raised e)).2.2.errors_total = m.errors_total + 1 ∧
    (request_middleware s m (.raised e)).1 = .failed e ∧
    (∀ status, (request_middleware s m (.response status)).2.2.errors_total =
      m.errors_total) := by
  refine ⟨?_, ?_, fun status => ?_⟩ <;>
    simp [request_middleware, start_request, hacc]

/-- Witness for C4 at the fresh service state and a computation error. -/
theorem downstream_error_counted_witness :
    (request_middleware initState initMetrics
        (.raised .computationError)).2.2.errors_total = initMetrics.errors_total + 1 ∧
    (request_middleware initState initMetrics (.raised .computationError)).1 =
      .failed .computationError ∧
    (∀ status, (request_middleware initState initMetrics
        (.response status)).2.2.errors_total = initMetrics.errors_total) :=
  downstream_error_counted initState initMetrics .computationError (by decide)

/-- C9: a POST /payload input is rejected with the 422-equivalent
validation error exactly when it violates the bounds (`numbers` empty or
longer than 10000, `text` empty or longer than 50000 characters); any
in-bounds input passes validation, and only then do the two engines run
and produce the response. -/
theorem validate_payload_none_iff (numbers : List ℚ) (text : List Char) :
    validate_payload numbers text = none ↔
      ¬(numbers = [] ∨ 10000 < numbers.length ∨ text = [] ∨ 50000 < text.length) := by
  unfold validate_payload
  by_cases h1 : numbers = [] <;> by_cases h2 : numbers.length > 10000 <;>
    by_cases h3 : text = [] <;> by_cases h4 : text.length > 50000 <;>
    simp [h1, h2, h3, h4, Nat.lt_one_iff, List.length_eq_zero]

theorem validate_payload_cases (numbers : List ℚ) (text : List Char) :
    validate_payload numbers text = none ∨
      validate_payload numbers text = some .validationError := by
  unfold validate_payload
  by_cases h1 : numbers = [] <;> by_cases h2 : numbers.length > 10000 <;>
    by_cases h3 : text.length < 1 <;> by_cases h4 : text.length > 50000 <;>
    simp [h1, h2, h3, h4]

theorem validation_boundary (numbers : List ℚ) (text : List Char) :
    (process_payload numbers text = .error .validationError ↔
      numbers = [] ∨ 10000 < numbers.length ∨ text = [] ∨ 50000 < text.length) ∧
    (process_payload numbers text = .error .validationError ∨
      process_payload numbers text =
        .ok (calculate_statistics numbers, analyze_text text)) := by
  have hiff := validate_payload_none_iff numbers text
  have hcases := validate_payload_cases numbers text
  unfold process_payload
  rcases hcases with hv | hv <;> rw [hv] at hiff ⊢ <;> simp at hiff ⊢
  · tauto
  · by_cases h1 : numbers = []
    · exact Or.inl h1
    · by_cases h2 : 10000 < numbers.length
      · exact Or.inr (Or.inl h2)
      · by_cases h3 : text = []
        · exact Or.inr (Or.inr (Or.inl h3))
        · exact Or.inr (Or.inr (Or.inr (hiff h1 (by omega) h3)))

/-- Witness for C9 at the in-bounds input `([1], "a")` and the
out-of-bounds input `([], "a")`. -/
theorem validation_boundary_witness :
    ((process_payload [1] [Char.ofNat 97] = .error .validationError ↔
      ([1] : List ℚ) = [] ∨ 10000 < ([1] : List ℚ).length ∨
        [Char.ofNat 97] = ([] : List Char) ∨ 50000 < ([Char.ofNat 97] : List Char).length) ∧
      (process_payload [1] [Char.ofNat 97] = .error .validationError ∨
        process_payload [1] [Char.ofNat 97] =
          .ok (calculate_statistics [1], analyze_text [Char.ofNat 97]))) ∧
    (process_payload [] [Char.ofNat 97] = .error .validationError ↔
      ([] : List ℚ) = [] ∨ 10000 < ([] : List ℚ).length ∨
        [Char.ofNat 97] = ([] : List Char) ∨ 50000 < ([Char.ofNat 97] : List Char).length) ∧
    (process_payload [] [Char.ofNat 97] = .error .validationError ∨
      process_payload [] [Char.ofNat 97] =
        .ok (calculate_statistics [], analyze_text [Char.ofNat 97])) :=
  ⟨validation_boundary [1] [Char.ofNat 97], validation_boundary [] [Char.ofNat 97]⟩

end SRE
